import Mathlib

/-!
Shallow embedding of `chonkie/embeddings/base.py` (`BaseEmbeddings`), the
abstract contract for text-embedding providers, together with theorems
settling the frozen claims about it.

Modelling conventions:
* a numpy 1-D float array is a `List ℝ` (IEEE floats are modelled as real
  numbers);
* a dynamically typed Python value passed to `__call__` or `embed` is a
  `PyObj`;
* a concrete provider (a subclass supplying the abstract methods) is a
  `ProviderSpec`; a successfully constructed instance is a `BaseEmbeddings`
  value, which can only be obtained through `construct` (the model of
  `__init__`);
* a Python exception is an `Except.error` value: `EmbedError` for
  provider-specific failures raised inside an overridden `embed`, and
  `PyError` for the errors visible at the contract's surface
  (`ValueError`, `ImportError`, `NameError`, or a propagated `EmbedError`).
-/

namespace Chonkie

/-- A vector: a numpy 1-D float array, modelled as a list of reals. -/
abbrev Vec := List ℝ

/-- Dynamically typed Python values that can reach the contract's surface:
strings, lists, and representative non-string non-list values. -/
inductive PyObj where
  | str (s : String)
  | list (xs : List PyObj)
  | int (n : Int)
  | none

/-- A provider-specific error raised by a concrete `embed` implementation. -/
structure EmbedError where
  msg : String

/-- Errors visible at the contract surface.  `valueError` is raised by
`__call__` on invalid input, `importError` by `_import_dependencies`,
`nameError` would be Python's failure mode for using the global `np`
binding when it was never bound, and `fromEmbed` propagates a
provider-specific embedding failure. -/
inductive PyError where
  | valueError (msg : String)
  | importError (msg : String)
  | nameError (msg : String)
  | fromEmbed (e : EmbedError)

/-- The abstract methods a concrete provider supplies: `embed` (which, being
Python, receives any dynamically typed value and may raise), the `dimension`
property, and the (overridable) `is_available` check as it evaluates in the
current environment. -/
structure ProviderSpec where
  embed : PyObj → Except EmbedError Vec
  dimension : Nat
  is_available : Bool

/-- A constructed provider instance: the spec plus whether the global `np`
binding was made by `_import_dependencies`. -/
structure BaseEmbeddings where
  spec : ProviderSpec
  np_bound : Bool

/-- The message of the `ImportError` raised by `_import_dependencies`. -/
def numpy_missing_msg : String :=
  "numpy is not available. Please install it via `pip install chonkie[semantic]`"

/-- The message of the `ValueError` raised by `__call__` on invalid input. -/
def invalid_input_msg : String := "Input must be a string or list of strings"

/-- `BaseEmbeddings._import_dependencies`: if `self.is_available()` holds,
bind the global `np` (returning `true` for "np is now bound"); otherwise
raise `ImportError` with the remediation message. -/
def import_dependencies (avail : Bool) : Except PyError Bool :=
  if avail then Except.ok true
  else Except.error (PyError.importError numpy_missing_msg)

/-- `BaseEmbeddings.__init__`: construction runs `_import_dependencies`;
a provider instance is produced only if that step succeeds. -/
def construct (P : ProviderSpec) : Except PyError BaseEmbeddings :=
  match import_dependencies P.is_available with
  | Except.ok npb => Except.ok ⟨P, npb⟩
  | Except.error e => Except.error e

/-- `BaseEmbeddings.embed_batch` default implementation:
`[self.embed(text) for text in texts]` — `embed` is applied to each element
left to right, and the first raised error aborts the whole comprehension. -/
def embed_batch (P : ProviderSpec) : List PyObj → Except EmbedError (List Vec)
  | [] => Except.ok []
  | t :: ts =>
    match P.embed t with
    | Except.error e => Except.error e
    | Except.ok v =>
      match embed_batch P ts with
      | Except.error e => Except.error e
      | Except.ok vs => Except.ok (v :: vs)

/-- The result of `BaseEmbeddings.__call__`: a single vector (from `embed`)
or a list of vectors (from `embed_batch`). -/
inductive CallResult where
  | single (v : Vec)
  | batch (vs : List Vec)

/-- `BaseEmbeddings.__call__`: `isinstance(text, str)` routes to `embed`,
`isinstance(text, list)` routes to `embed_batch`, anything else raises
`ValueError`. -/
def call (P : ProviderSpec) (text : PyObj) : Except PyError CallResult :=
  match text with
  | PyObj.str s =>
    match P.embed (PyObj.str s) with
    | Except.ok v => Except.ok (CallResult.single v)
    | Except.error e => Except.error (PyError.fromEmbed e)
  | PyObj.list xs =>
    match embed_batch P xs with
    | Except.ok vs => Except.ok (CallResult.batch vs)
    | Except.error e => Except.error (PyError.fromEmbed e)
  | _ => Except.error (PyError.valueError invalid_input_msg)

/-- `np.dot(u, v.T)` for 1-D arrays: the sum of pointwise products. -/
noncomputable def np_dot (u v : Vec) : ℝ :=
  (List.zipWith (fun a b => a * b) u v).sum

/-- `np.linalg.norm(u)` for a 1-D array: the Euclidean norm, the square
root of the sum of squares. -/
noncomputable def np_norm (u : Vec) : ℝ :=
  Real.sqrt ((u.map (fun x => x * x)).sum)

/-- `BaseEmbeddings.similarity`: the unguarded cosine similarity
`np.dot(u, v.T) / (np.linalg.norm(u) * np.linalg.norm(v))` (the `np.float32`
cast is the identity in the real-number model). -/
noncomputable def similarity (u v : Vec) : ℝ :=
  np_dot u v / (np_norm u * np_norm v)

/-- Calling `similarity` on an instance: it reads the global `np` binding,
so it can only succeed when `np` is bound; an unbound `np` would be a
`NameError` in Python. -/
noncomputable def instance_similarity (inst : BaseEmbeddings) (u v : Vec) :
    Except PyError ℝ :=
  if inst.np_bound then Except.ok (similarity u v)
  else Except.error (PyError.nameError "name np is not defined")

/-- The runtime environment: which modules are installed and hence findable
by `importlib.util.find_spec`. -/
structure Env where
  installed : List String

/-- `importlib.util.find_spec(name) is not None`. -/
def find_spec (env : Env) (name : String) : Bool :=
  env.installed.contains name

/-- `BaseEmbeddings.is_available` default implementation:
`importutil.find_spec("numpy") is not None`. -/
def default_is_available (env : Env) : Bool :=
  find_spec env "numpy"

/-- A provider spec whose availability check is the default one, evaluated
in the given environment. -/
def with_default_availability (env : Env) (P : ProviderSpec) : ProviderSpec :=
  ⟨P.embed, P.dimension, default_is_available env⟩

/-- A minimal concrete provider used to instantiate the contract theorems:
it embeds every string as the vector `[1]` and fails on any other value. -/
def testEmbed : PyObj → Except EmbedError Vec
  | PyObj.str _ => Except.ok [(1 : ℝ)]
  | _ => Except.error ⟨"cannot embed"⟩

/-- The minimal provider, declared available. -/
def testProvider : ProviderSpec := ⟨testEmbed, 1, true⟩

/-- The minimal provider, declared unavailable. -/
def unavailableProvider : ProviderSpec := ⟨testEmbed, 1, false⟩

/-- Is this Python value a (single) string? -/
def is_string (x : PyObj) : Bool :=
  match x with
  | PyObj.str _ => true
  | _ => false

/-- Modelled from the spec's words, for comparison with the code: a
"sequence of strings" is a list value all of whose elements are strings. -/
def is_string_sequence_claim (x : PyObj) : Bool :=
  match x with
  | PyObj.list xs => xs.all is_string
  | _ => false

/-- The spec's description of the default similarity: the dot product of
the two vectors divided by the product of their Euclidean norms, written
directly as indexed sums over the entries. -/
noncomputable def cosine_similarity_spec (u v : Vec) : ℝ :=
  (∑ i ∈ Finset.range u.length, u.getD i 0 * v.getD i 0) /
    (Real.sqrt (∑ i ∈ Finset.range u.length, (u.getD i 0) ^ 2) *
      Real.sqrt (∑ i ∈ Finset.range v.length, (v.getD i 0) ^ 2))

/-- C9: the default `embed_batch` on the empty list returns the empty list,
and calling the instance with an empty list returns an empty batch rather
than raising.  The statement quantifies over every provider — including
providers whose `embed` always fails — so `embed` is never consulted. -/
theorem embed_batch_empty (P : ProviderSpec) :
    embed_batch P [] = Except.ok [] ∧
    call P (PyObj.list []) = Except.ok (CallResult.batch []) :=
  ⟨rfl, rfl⟩

/-- C3: callable dispatch returns exactly what the underlying method
returns — a string argument yields `embed`'s result (value or error), and a
list argument yields `embed_batch`'s result (values or error). -/
theorem call_routes_to_embed_and_batch (P : ProviderSpec) (s : String)
    (ts : List PyObj) :
    (∀ v, P.embed (PyObj.str s) = Except.ok v →
      call P (PyObj.str s) = Except.ok (CallResult.single v)) ∧
    (∀ e, P.embed (PyObj.str s) = Except.error e →
      call P (PyObj.str s) = Except.error (PyError.fromEmbed e)) ∧
    (∀ vs, embed_batch P ts = Except.ok vs →
      call P (PyObj.list ts) = Except.ok (CallResult.batch vs)) ∧
    (∀ e, embed_batch P ts = Except.error e →
      call P (PyObj.list ts) = Except.error (PyError.fromEmbed e)) := by
  refine ⟨?_, ?_, ?_, ?_⟩ <;> intro a ha <;> simp [call, ha]

/-- C3 witness: the routing equivalence at a concrete provider, string and
list. -/
theorem call_routes_to_embed_and_batch_witness :
    call testProvider (PyObj.str "a") =
      Except.ok (CallResult.single [(1 : ℝ)]) ∧
    call testProvider (PyObj.list [PyObj.str "a"]) =
      Except.ok (CallResult.batch [[(1 : ℝ)]]) :=
  ⟨(call_routes_to_embed_and_batch testProvider "a" [PyObj.str "a"]).1
      [(1 : ℝ)] rfl,
    (call_routes_to_embed_and_batch testProvider "a" [PyObj.str "a"]).2.2.1
      [[(1 : ℝ)]] rfl⟩

/-- C10: dispatch inspects only the outer type — every list, whatever its
elements, is routed to `embed_batch` and never produces the invalid-input
`ValueError` at dispatch time. -/
theorem call_list_outer_type_only (P : ProviderSpec) (xs : List PyObj) :
    (∀ m, call P (PyObj.list xs) ≠ Except.error (PyError.valueError m)) ∧
    (∀ vs, embed_batch P xs = Except.ok vs →
      call P (PyObj.list xs) = Except.ok (CallResult.batch vs)) ∧
    (∀ e, embed_batch P xs = Except.error e →
      call P (PyObj.list xs) = Except.error (PyError.fromEmbed e)) := by
  refine ⟨?_, ?_, ?_⟩
  · intro m hm
    rw [call] at hm
    cases h : embed_batch P xs <;> rw [h] at hm <;> exact nomatch hm
  · intro vs h; simp [call, h]
  · intro e h; simp [call, h]

/-- C10 witness: a list containing a non-string element reaches
`embed_batch` (whose provider-specific failure propagates) and does not
trigger the dispatch `ValueError`. -/
theorem call_list_outer_type_only_witness :
    call testProvider (PyObj.list [PyObj.int 7]) ≠
      Except.error (PyError.valueError invalid_input_msg) ∧
    call testProvider (PyObj.list [PyObj.int 7]) =
      Except.error (PyError.fromEmbed ⟨"cannot embed"⟩) :=
  ⟨(call_list_outer_type_only testProvider [PyObj.int 7]).1 invalid_input_msg,
    (call_list_outer_type_only testProvider [PyObj.int 7]).2.2
      ⟨"cannot embed"⟩ rfl⟩

/-- C2 (amended): `__call__` raises the invalid-input `ValueError` exactly
when the argument is neither a string value nor a list value; strings and
lists (of whatever element types) never produce it at dispatch. -/
theorem call_invalid_input_iff (P : ProviderSpec) (x : PyObj) :
    (∃ m, call P x = Except.error (PyError.valueError m)) ↔
      (∀ s, x ≠ PyObj.str s) ∧ (∀ xs, x ≠ PyObj.list xs) := by
  cases x with
  | str s =>
    constructor
    · rintro ⟨m, hm⟩
      rw [call] at hm
      cases h : P.embed (PyObj.str s) <;> rw [h] at hm <;> exact nomatch hm
    · rintro ⟨h1, _⟩
      exact absurd rfl (h1 s)
  | list xs =>
    constructor
    · rintro ⟨m, hm⟩
      rw [call] at hm
      cases h : embed_batch P xs <;> rw [h] at hm <;> exact nomatch hm
    · rintro ⟨_, h2⟩
      exact absurd rfl (h2 xs)
  | int n =>
    exact ⟨fun _ => ⟨(fun _ h => nomatch h), (fun _ h => nomatch h)⟩,
      fun _ => ⟨invalid_input_msg, rfl⟩⟩
  | none =>
    exact ⟨fun _ => ⟨(fun _ h => nomatch h), (fun _ h => nomatch h)⟩,
      fun _ => ⟨invalid_input_msg, rfl⟩⟩

/-- C2 witness: a non-string, non-list argument (an integer) raises the
invalid-input error. -/
theorem call_invalid_input_iff_witness :
    ∃ m, call testProvider (PyObj.int 3) =
      Except.error (PyError.valueError m) :=
  (call_invalid_input_iff testProvider (PyObj.int 3)).mpr
    ⟨(fun _ h => nomatch h), (fun _ h => nomatch h)⟩

/-- C2 counterexample: the claim as stated is false.  The value
`[1]` (a list containing a non-string) is neither a single string nor a
sequence of strings, so by the claim invoking the provider with it should
raise the invalid-input error — but the code checks only the outer type,
routes it to `embed_batch`, and the failure that surfaces is the
provider-specific embedding error, not the invalid-input `ValueError`. -/
theorem call_invalid_input_counterexample :
    ¬ ((∃ m, call testProvider (PyObj.list [PyObj.int 1]) =
          Except.error (PyError.valueError m)) ↔
        (is_string (PyObj.list [PyObj.int 1]) = false ∧
          is_string_sequence_claim (PyObj.list [PyObj.int 1]) = false)) := by
  intro h
  obtain ⟨m, hm⟩ := h.mpr ⟨rfl, rfl⟩
  rw [show call testProvider (PyObj.list [PyObj.int 1]) =
      Except.error (PyError.fromEmbed ⟨"cannot embed"⟩) from rfl] at hm
  exact nomatch hm

/-- C1: the default `embed_batch` applies `embed` index-wise — a successful
batch has exactly as many vectors as input texts and its `i`-th vector is
exactly `embed` of the `i`-th text — and if `embed` fails on any text the
whole batch call fails (so no partial results are returned). -/
theorem embed_batch_default (P : ProviderSpec) (texts : List PyObj) :
    (∀ vs, embed_batch P texts = Except.ok vs →
      vs.length = texts.length ∧
      ∀ (i : ℕ) (h1 : i < texts.length) (h2 : i < vs.length),
        P.embed texts[i] = Except.ok vs[i]) ∧
    ((∃ t ∈ texts, ∃ e, P.embed t = Except.error e) →
      ∃ e, embed_batch P texts = Except.error e) := by
  induction texts with
  | nil =>
    constructor
    · intro vs hvs
      rw [embed_batch] at hvs
      cases hvs
      exact ⟨rfl, fun i h1 _ => absurd h1 (Nat.not_lt_zero i)⟩
    · rintro ⟨t, ht, _⟩
      exact absurd ht (List.not_mem_nil t)
  | cons t ts ih =>
    constructor
    · intro vs hvs
      cases hP : P.embed t with
      | error e => rw [embed_batch, hP] at hvs; exact nomatch hvs
      | ok v =>
        cases hB : embed_batch P ts with
        | error e => rw [embed_batch, hP, hB] at hvs; exact nomatch hvs
        | ok ws =>
          rw [embed_batch, hP, hB] at hvs
          cases hvs
          obtain ⟨hlen, hget⟩ := ih.1 ws hB
          refine ⟨by simp [hlen], ?_⟩
          intro i h1 h2
          cases i with
          | zero => simpa using hP
          | succ j =>
            simp only [List.getElem_cons_succ]
            exact hget j (by simpa using h1) (by simpa using h2)
    · rintro ⟨x, hx, e, he⟩
      rcases List.mem_cons.mp hx with rfl | hmem
      · exact ⟨e, by rw [embed_batch, he]⟩
      · cases hP : P.embed t with
        | error e2 => exact ⟨e2, by rw [embed_batch, hP]⟩
        | ok v =>
          obtain ⟨e3, he3⟩ := ih.2 ⟨x, hmem, e, he⟩
          exact ⟨e3, by rw [embed_batch, hP, he3]⟩

/-- C1 witness: on a concrete two-element batch the successful result has
the batch's length and its first entry is `embed` of the first text; a
batch containing a value the provider cannot embed makes the whole call
fail. -/
theorem embed_batch_default_witness :
    ([[(1 : ℝ)], [(1 : ℝ)]] : List Vec).length =
      [PyObj.str "a", PyObj.str "b"].length ∧
    testProvider.embed [PyObj.str "a", PyObj.str "b"][0] =
      Except.ok ([[(1 : ℝ)], [(1 : ℝ)]] : List Vec)[0] ∧
    (∃ e, embed_batch testProvider [PyObj.str "a", PyObj.int 0] =
      Except.error e) :=
  ⟨((embed_batch_default testProvider [PyObj.str "a", PyObj.str "b"]).1
      [[(1 : ℝ)], [(1 : ℝ)]] rfl).1,
    ((embed_batch_default testProvider [PyObj.str "a", PyObj.str "b"]).1
      [[(1 : ℝ)], [(1 : ℝ)]] rfl).2 0 (by decide) (by decide),
    (embed_batch_default testProvider [PyObj.str "a", PyObj.int 0]).2
      ⟨PyObj.int 0,
        List.mem_cons_of_mem (PyObj.str "a") (List.mem_cons_self (PyObj.int 0) []),
        ⟨"cannot embed"⟩, rfl⟩⟩

/-- C4: construction runs the availability check.  When it is false,
construction raises the `ImportError` naming numpy and the `pip install`
remediation, and no instance is produced.  When it is true, construction
succeeds, the instance has the numpy binding, and calls that need the
numeric dependency (the default `similarity`) cannot fail for lack of
it. -/
theorem construct_checks_availability (P : ProviderSpec) :
    (P.is_available = false →
      construct P = Except.error (PyError.importError numpy_missing_msg) ∧
      ∀ inst, construct P ≠ Except.ok inst) ∧
    (P.is_available = true →
      ∃ inst, construct P = Except.ok inst ∧ inst.np_bound = true ∧
        ∀ u v, instance_similarity inst u v = Except.ok (similarity u v)) := by
  constructor
  · intro h
    constructor
    · rw [construct, import_dependencies, h]
      rfl
    · intro inst hinst
      rw [construct, import_dependencies, h] at hinst
      exact nomatch hinst
  · intro h
    refine ⟨⟨P, true⟩, ?_, rfl, fun u v => rfl⟩
    rw [construct, import_dependencies, h]
    rfl

/-- C4 witness: constructing an unavailable provider yields exactly the
dependency-missing `ImportError`; constructing an available one yields an
instance with the numpy binding whose `similarity` calls succeed. -/
theorem construct_checks_availability_witness :
    construct unavailableProvider =
      Except.error (PyError.importError numpy_missing_msg) ∧
    (∃ inst, construct testProvider = Except.ok inst ∧
      inst.np_bound = true ∧
      ∀ u v, instance_similarity inst u v = Except.ok (similarity u v)) :=
  ⟨((construct_checks_availability unavailableProvider).1 rfl).1,
    (construct_checks_availability testProvider).2 rfl⟩

/-- C7: the default availability check is a boolean that is true exactly
when `find_spec` locates numpy in the environment, and it gates
construction — construction of a provider using the default check can
succeed only when numpy is findable, and fails with the dependency error
when it is not. -/
theorem default_availability_spec (env : Env) (P : ProviderSpec) :
    (default_is_available env = true ↔ "numpy" ∈ env.installed) ∧
    (∀ inst, construct (with_default_availability env P) = Except.ok inst →
      "numpy" ∈ env.installed) ∧
    ("numpy" ∉ env.installed →
      construct (with_default_availability env P) =
        Except.error (PyError.importError numpy_missing_msg)) := by
  have hiff : default_is_available env = true ↔ "numpy" ∈ env.installed := by
    rw [default_is_available, find_spec]
    exact List.elem_iff
  refine ⟨hiff, ?_, ?_⟩
  · intro inst hinst
    by_contra hmem
    have hfalse : default_is_available env = false := by
      cases h : default_is_available env with
      | true => exact absurd (hiff.mp h) hmem
      | false => rfl
    rw [construct, with_default_availability] at hinst
    simp only [import_dependencies, hfalse] at hinst
    exact nomatch hinst
  · intro hmem
    have hfalse : default_is_available env = false := by
      cases h : default_is_available env with
      | true => exact absurd (hiff.mp h) hmem
      | false => rfl
    rw [construct, with_default_availability]
    simp only [import_dependencies, hfalse]
    rfl

/-- C7 witness: with numpy installed the default check is true; with an
empty environment, construction under the default check fails with the
dependency error. -/
theorem default_availability_spec_witness :
    default_is_available ⟨["numpy"]⟩ = true ∧
    construct (with_default_availability ⟨[]⟩ testProvider) =
      Except.error (PyError.importError numpy_missing_msg) :=
  ⟨(default_availability_spec ⟨["numpy"]⟩ testProvider).1.mpr
      (List.mem_singleton_self "numpy"),
    (default_availability_spec ⟨[]⟩ testProvider).2.2
      (List.not_mem_nil "numpy")⟩

/-- Bridge: the sum of squared entries of a list as an indexed sum. -/
theorem sum_map_mul_self (u : Vec) :
    (u.map (fun x => x * x)).sum =
      ∑ i ∈ Finset.range u.length, (u.getD i 0) ^ 2 := by
  induction u with
  | nil => simp
  | cons a l ih =>
    rw [List.map_cons, List.sum_cons, List.length_cons, Finset.sum_range_succ']
    simp only [List.getD_cons_succ, List.getD_cons_zero]
    rw [ih]
    ring

/-- Bridge: the sum of pointwise products of two equal-length lists as an
indexed sum. -/
theorem sum_zipWith_mul (u v : Vec) (h : v.length = u.length) :
    (List.zipWith (fun a b => a * b) u v).sum =
      ∑ i ∈ Finset.range u.length, u.getD i 0 * v.getD i 0 := by
  induction u generalizing v with
  | nil =>
    cases v with
    | nil => simp
    | cons b t => exact absurd h (by simp)
  | cons a l ih =>
    cases v with
    | nil => exact absurd h (by simp)
    | cons b t =>
      rw [List.zipWith_cons_cons, List.sum_cons, List.length_cons,
        Finset.sum_range_succ']
      simp only [List.getD_cons_succ, List.getD_cons_zero]
      rw [ih t (by simpa using h)]
      ring

/-- C5: the default `similarity` is exactly the cosine similarity the spec
describes — the dot product of the two vectors divided by the product of
their Euclidean norms. -/
theorem similarity_is_cosine (u v : Vec) (h : v.length = u.length) :
    similarity u v = cosine_similarity_spec u v := by
  unfold similarity cosine_similarity_spec np_dot np_norm
  rw [sum_zipWith_mul u v h, sum_map_mul_self u, sum_map_mul_self v]

/-- C5 witness: the equality at a concrete pair of vectors. -/
theorem similarity_is_cosine_witness :
    similarity [(1 : ℝ)] [(1 : ℝ)] = cosine_similarity_spec [(1 : ℝ)] [(1 : ℝ)] :=
  similarity_is_cosine [(1 : ℝ)] [(1 : ℝ)] rfl

/-- Multiplying a list pointwise with itself squares its entries. -/
theorem zipWith_mul_self (u : Vec) :
    List.zipWith (fun a b => a * b) u u = u.map (fun x => x * x) := by
  induction u with
  | nil => rfl
  | cons a l ih => rw [List.zipWith_cons_cons, List.map_cons, ih]

/-- A sum of squares is nonnegative. -/
theorem sum_sq_nonneg (u : Vec) : 0 ≤ (u.map (fun x => x * x)).sum :=
  List.sum_nonneg (fun x hx => by
    obtain ⟨y, _, rfl⟩ := List.mem_map.mp hx
    exact mul_self_nonneg y)

/-- A sum of squares with a nonzero entry is positive. -/
theorem sum_sq_pos (u : Vec) (h : ∃ x ∈ u, x ≠ 0) :
    0 < (u.map (fun x => x * x)).sum := by
  induction u with
  | nil =>
    obtain ⟨x, hx, _⟩ := h
    exact absurd hx (List.not_mem_nil x)
  | cons a l ih =>
    rw [List.map_cons, List.sum_cons]
    obtain ⟨x, hx, hx0⟩ := h
    rcases List.mem_cons.mp hx with rfl | hmem
    · exact add_pos_of_pos_of_nonneg (mul_self_pos.mpr hx0) (sum_sq_nonneg l)
    · exact add_pos_of_nonneg_of_pos (mul_self_nonneg a) (ih ⟨x, hmem, hx0⟩)

/-- C6: the default `similarity` is symmetric on equal-length vectors, and
every nonzero vector has self-similarity exactly `1` (exact in the
real-number model of float arithmetic). -/
theorem similarity_symm_and_self :
    (∀ u v : Vec, v.length = u.length → similarity u v = similarity v u) ∧
    (∀ u : Vec, (∃ x ∈ u, x ≠ 0) → similarity u u = 1) := by
  constructor
  · intro u v _
    unfold similarity np_dot
    rw [List.zipWith_comm_of_comm (fun a b => a * b) mul_comm u v,
      mul_comm (np_norm u) (np_norm v)]
  · intro u hu
    unfold similarity np_dot np_norm
    rw [zipWith_mul_self u, Real.mul_self_sqrt (sum_sq_nonneg u)]
    exact div_self (ne_of_gt (sum_sq_pos u hu))

/-- C6 witness: symmetry and self-similarity at concrete vectors. -/
theorem similarity_symm_and_self_witness :
    similarity [(1 : ℝ)] [(0 : ℝ)] = similarity [(0 : ℝ)] [(1 : ℝ)] ∧
    similarity [(1 : ℝ)] [(1 : ℝ)] = 1 :=
  ⟨similarity_symm_and_self.1 [(1 : ℝ)] [(0 : ℝ)] rfl,
    similarity_symm_and_self.2 [(1 : ℝ)]
      ⟨1, List.mem_singleton_self 1, one_ne_zero⟩⟩

/-- C8: the default `similarity` divides by the product of the two norms
with no guard: whenever either vector has Euclidean norm zero the
denominator is zero and the returned value is literally the quotient of
the dot product by zero.  No precondition excludes such vectors at the
public interface — the theorem holds for every pair. -/
theorem similarity_unguarded_div_by_zero (u v : Vec)
    (h : np_norm u = 0 ∨ np_norm v = 0) :
    np_norm u * np_norm v = 0 ∧ similarity u v = np_dot u v / 0 := by
  have hz : np_norm u * np_norm v = 0 := by
    rcases h with h | h <;> rw [h] <;> ring
  refine ⟨hz, ?_⟩
  unfold similarity
  rw [hz]

/-- C8 witness: the zero vector `[0]` reaches the division with a zero
denominator. -/
theorem similarity_unguarded_div_by_zero_witness :
    np_norm [(0 : ℝ)] * np_norm [(1 : ℝ)] = 0 ∧
    similarity [(0 : ℝ)] [(1 : ℝ)] = np_dot [(0 : ℝ)] [(1 : ℝ)] / 0 :=
  similarity_unguarded_div_by_zero [(0 : ℝ)] [(1 : ℝ)]
    (Or.inl (by simp [np_norm]))

end Chonkie
